import Mathlib

/-!
Verification of the reCAPTCHA verifier package (recaptcha.go).

The embedding models the pure data flow of the package.  The network
round trip performed by `check` is abstracted as a `CheckOutcome` value
describing how the HTTP POST, the body read and the JSON unmarshal went;
`check` itself performs the error wrapping that the source performs with
fmt.Errorf.  Go errors are modelled as `Option String` (the message,
`none` for a nil error).  The in-place mutation that `convertErrorCodes`
performs on its slice is modelled by returning the post-call content of
the slice as the first component of a pair, the returned error being the
second component.  Go float64 score values are modelled as rationals:
the package never computes with a score, it only moves it.
-/

namespace Recaptcha

/-- The static responseErrors table of the package, as an association list. -/
def responseErrorsTable : List (String × String) :=
  [("missing-input-secret", "the secret parameter is missing"),
   ("invalid-input-secret", "the secret parameter is invalid or malformed"),
   ("missing-input-response", "the response parameter is missing"),
   ("invalid-input-response", "the response parameter is invalid or malformed"),
   ("bad-request", "the request is invalid or malformed"),
   ("timeout-or-duplicate", "the response is no longer valid - too old or used previously")]

/-- Map lookup on the responseErrors table: the Go expression responseErrors[e]. -/
def responseErrors (code : String) : Option String :=
  responseErrorsTable.lookup code

/-- The decoded provider response (struct recaptchaResponse).  The
challenge_ts field is modelled as its raw string; it is never read. -/
structure recaptchaResponse where
  Success : Bool
  Score : Rat
  Action : String
  ChallengeTS : String
  Hostname : String
  ErrorCodes : List String
deriving DecidableEq

/-- The zero value of recaptchaResponse, as declared by `var r` in check. -/
def zeroResponse : recaptchaResponse :=
  { Success := false, Score := 0, Action := "", ChallengeTS := "", Hostname := "",
    ErrorCodes := [] }

/-- Outcome of the network round trip inside check: the POST may fail, the
body read may fail, the JSON unmarshal may fail (leaving some response
value in r), or a response is decoded. -/
inductive CheckOutcome where
  | postErr (msg : String)
  | readErr (msg : String)
  | unmarshalErr (msg : String) (r : recaptchaResponse)
  | ok (r : recaptchaResponse)
deriving DecidableEq

/-- The function check: wraps each failure of the round trip exactly as the
source does with fmt.Errorf, and returns the pair (r, err). -/
def check (oc : CheckOutcome) : recaptchaResponse × Option String :=
  match oc with
  | CheckOutcome.postErr msg => (zeroResponse, some ("post error: " ++ msg))
  | CheckOutcome.readErr msg =>
      (zeroResponse, some ("read error: could not read body: " ++ msg))
  | CheckOutcome.unmarshalErr msg r =>
      (r, some ("read error: JSON unmarshal error: " ++ msg))
  | CheckOutcome.ok r => (r, none)

/-- The body of the conversion loop in convertErrorCodes: the table text for
a known code, a synthetic message for an unknown one. -/
def translateCode (e : String) : String :=
  match responseErrors e with
  | some code => code
  | none => "unknown error code " ++ e

/-- The loop of convertErrorCodes: the content of the slice after every
index has been overwritten. -/
def convertLoop : List String → List String
  | [] => []
  | e :: rest => translateCode e :: convertLoop rest

/-- Rendering of a Go string slice by the fmt verb used in
convertErrorCodes: the elements joined by single spaces, in brackets.
The space-joining part. -/
def joinSpace : List String → String
  | [] => ""
  | [x] => x
  | x :: y :: rest => x ++ " " ++ joinSpace (y :: rest)

/-- fmt rendering of a []string value: bracketed, space-separated. -/
def goFormatStrings (xs : List String) : String :=
  "[" ++ joinSpace xs ++ "]"

/-- The function convertErrorCodes.  The first component is the content of
the caller slice after the call (the loop overwrites it in place); the
second is the returned error. -/
def convertErrorCodes (errorCodes : List String) : List String × Option String :=
  if errorCodes.length = 0 then
    (errorCodes, none)
  else
    (convertLoop errorCodes,
     some ("reCAPTCHA request errors: " ++ goFormatStrings (convertLoop errorCodes)))

/-- The function Confirm, as a function of the round-trip outcome. -/
def Confirm (oc : CheckOutcome) : Bool × Option String :=
  match check oc with
  | (_, some e) => (false, some e)
  | (resp, none) => (resp.Success, (convertErrorCodes resp.ErrorCodes).2)

/-- The function ConfirmV3, as a function of the round-trip outcome. -/
def ConfirmV3 (oc : CheckOutcome) : Bool × Rat × String × Option String :=
  match check oc with
  | (_, some e) => (false, 0, "", some e)
  | (resp, none) =>
      (resp.Success, resp.Score, resp.Action, (convertErrorCodes resp.ErrorCodes).2)

/-- A needle occurs somewhere inside a haystack string. -/
def isSubstring (needle hay : String) : Prop :=
  ∃ pre suf, hay = pre ++ needle ++ suf

/-- Every listed needle occurs in the haystack, in the listed order, in
pairwise disjoint positions. -/
def appearsInOrder : String → List String → Prop
  | _, [] => True
  | hay, n :: rest => ∃ pre suf, hay = pre ++ n ++ suf ∧ appearsInOrder suf rest

lemma convertLoop_length (l : List String) : (convertLoop l).length = l.length := by
  induction l with
  | nil => rfl
  | cons e rest ih => simp [convertLoop, ih]

lemma convertLoop_get (l : List String) (i : Nat) :
    List.get? (convertLoop l) i = (List.get? l i).map translateCode := by
  induction l generalizing i with
  | nil => cases i <;> rfl
  | cons e rest ih =>
    cases i with
    | zero => rfl
    | succ n => simpa [convertLoop] using ih n

lemma convertLoop_eq_map (l : List String) : convertLoop l = l.map translateCode := by
  induction l with
  | nil => rfl
  | cons e rest ih => simp [convertLoop, ih]

lemma convertLoop_eq_map_of_known (l : List String)
    (h : ∀ e ∈ l, (responseErrors e).isSome) :
    convertLoop l = l.map fun e => (responseErrors e).getD "" := by
  induction l with
  | nil => rfl
  | cons e rest ih =>
    have he : (responseErrors e).isSome := h e (List.mem_cons_self e rest)
    have hrest : ∀ x ∈ rest, (responseErrors x).isSome :=
      fun x hx => h x (List.mem_cons_of_mem e hx)
    obtain ⟨t, ht⟩ := Option.isSome_iff_exists.mp he
    simp [convertLoop, ih hrest, translateCode, ht]

lemma appearsInOrder_join (ts : List String) :
    ∀ pre suf : String, appearsInOrder (pre ++ joinSpace ts ++ suf) ts := by
  induction ts with
  | nil => intro pre suf; trivial
  | cons t rest ih =>
    intro pre suf
    cases rest with
    | nil => exact ⟨pre, suf, rfl, trivial⟩
    | cons u us =>
      refine ⟨pre, " " ++ joinSpace (u :: us) ++ suf, ?_, ih " " suf⟩
      show pre ++ joinSpace (t :: u :: us) ++ suf =
        pre ++ t ++ (" " ++ joinSpace (u :: us) ++ suf)
      simp [joinSpace, String.append_assoc]

lemma joinSpace_mem_split (e : String) (xs : List String) (h : e ∈ xs) :
    ∃ pre suf, joinSpace xs = pre ++ e ++ suf := by
  induction xs with
  | nil => cases h
  | cons x rest ih =>
    cases rest with
    | nil =>
      rcases List.mem_singleton.mp h with rfl
      exact ⟨"", "", by simp [joinSpace, String.empty_append, String.append_empty]⟩
    | cons u us =>
      rcases List.mem_cons.mp h with rfl | hmem
      · exact ⟨"", " " ++ joinSpace (u :: us),
          by simp [joinSpace, String.empty_append, String.append_assoc]⟩
      · rcases ih hmem with ⟨pre, suf, hps⟩
        exact ⟨x ++ " " ++ pre, suf, by simp [joinSpace, hps, String.append_assoc]⟩

/-- Claim C1: for every decoded provider response whose error-codes list is
non-empty, Confirm returns the Success field of the response together with a
non-nil translated aggregate error, even when Success is true. -/
theorem confirm_reports_error_nonempty_codes (resp : recaptchaResponse)
    (h : resp.ErrorCodes ≠ []) :
    (Confirm (CheckOutcome.ok resp)).1 = resp.Success ∧
    ∃ m, (Confirm (CheckOutcome.ok resp)).2 = some m := by
  have hne : resp.ErrorCodes.length ≠ 0 := by
    simpa [List.length_eq_zero] using h
  refine ⟨rfl, "reCAPTCHA request errors: " ++ goFormatStrings (convertLoop resp.ErrorCodes), ?_⟩
  show (convertErrorCodes resp.ErrorCodes).2 = some _
  simp [convertErrorCodes, hne]

/-- Witness for C1: a concrete response with Success true and a non-empty
error-codes list, on which Confirm returns true together with some error. -/
theorem confirm_reports_error_nonempty_codes_witness :
    (recaptchaResponse.mk true 0 "" "" "" ["bad-request"]).ErrorCodes ≠ [] ∧
    ((Confirm (CheckOutcome.ok (recaptchaResponse.mk true 0 "" "" "" ["bad-request"]))).1 =
        (recaptchaResponse.mk true 0 "" "" "" ["bad-request"]).Success ∧
      ∃ m, (Confirm (CheckOutcome.ok
        (recaptchaResponse.mk true 0 "" "" "" ["bad-request"]))).2 = some m) :=
  ⟨by decide, confirm_reports_error_nonempty_codes _ (by decide)⟩

/-- Counterexample to C2: convertErrorCodes does mutate the caller list.
After a call on the singleton list holding the known code bad-request,
the list no longer holds that code string. -/
theorem convert_mutates_input_counterexample :
    (convertErrorCodes ["bad-request"]).1 ≠ ["bad-request"] := by decide

/-- Claim C2 (amended): convertErrorCodes overwrites the caller list in
place: after the call the list has the same length, and entry i holds the
translation of original entry i (the table text for a known code, the
synthetic unknown-code message otherwise); the value returned is determined
solely by the input. -/
theorem convert_overwrites_entrywise (l : List String) (i : Nat) :
    ((convertErrorCodes l).1).length = l.length ∧
    List.get? ((convertErrorCodes l).1) i = (List.get? l i).map translateCode := by
  by_cases h : l.length = 0
  · have hl : l = [] := List.length_eq_zero.mp h
    subst hl
    simp [convertErrorCodes]
  · have h1 : (convertErrorCodes l).1 = convertLoop l := by
      simp [convertErrorCodes, h]
    rw [h1, convertLoop_length]
    exact ⟨rfl, convertLoop_get l i⟩

/-- Claim C3: for every non-empty list of codes each of which is a key of
the table, the aggregate error message contains each documented descriptive
text, in the original order of the codes. -/
theorem convert_message_known_texts_in_order (l : List String) (h1 : l ≠ [])
    (h2 : ∀ e ∈ l, (responseErrors e).isSome) :
    ∃ msg, (convertErrorCodes l).2 = some msg ∧
      appearsInOrder msg (l.map fun e => (responseErrors e).getD "") := by
  have hne : l.length ≠ 0 := by simpa [List.length_eq_zero] using h1
  refine ⟨"reCAPTCHA request errors: " ++ goFormatStrings (convertLoop l), ?_, ?_⟩
  · simp [convertErrorCodes, hne]
  · have hmap := convertLoop_eq_map_of_known l h2
    have hin := appearsInOrder_join (l.map fun e => (responseErrors e).getD "")
      ("reCAPTCHA request errors: " ++ "[") "]"
    simpa only [goFormatStrings, hmap, String.append_assoc] using hin

/-- Witness for C3: a concrete two-element list of known codes. -/
theorem convert_message_known_texts_in_order_witness :
    (["missing-input-secret", "bad-request"] ≠ ([] : List String) ∧
      ∀ e ∈ ["missing-input-secret", "bad-request"], (responseErrors e).isSome) ∧
    ∃ msg, (convertErrorCodes ["missing-input-secret", "bad-request"]).2 = some msg ∧
      appearsInOrder msg
        (["missing-input-secret", "bad-request"].map fun e => (responseErrors e).getD "") :=
  ⟨⟨by decide, by decide⟩,
    convert_message_known_texts_in_order _ (by decide) (by decide)⟩

/-- Claim C4: whenever the list holds a code that is not a key of the table,
the aggregate message contains the literal text "unknown error code "
followed by that code. -/
theorem convert_message_unknown_code (l : List String) (e : String)
    (he : e ∈ l) (hu : responseErrors e = none) :
    ∃ msg, (convertErrorCodes l).2 = some msg ∧
      isSubstring ("unknown error code " ++ e) msg := by
  have hne : l.length ≠ 0 := by
    cases l with
    | nil => cases he
    | cons x rest => simp
  refine ⟨"reCAPTCHA request errors: " ++ goFormatStrings (convertLoop l), ?_, ?_⟩
  · simp [convertErrorCodes, hne]
  · have hmem : ("unknown error code " ++ e) ∈ convertLoop l := by
      rw [convertLoop_eq_map]
      have : translateCode e = "unknown error code " ++ e := by
        simp [translateCode, hu]
      exact this ▸ List.mem_map_of_mem translateCode he
    rcases joinSpace_mem_split _ _ hmem with ⟨pre, suf, hps⟩
    refine ⟨("reCAPTCHA request errors: " ++ "[") ++ pre, suf ++ "]", ?_⟩
    simp only [goFormatStrings, hps, String.append_assoc]

/-- Witness for C4: the singleton list holding the unknown code xyz. -/
theorem convert_message_unknown_code_witness :
    ("xyz" ∈ ["xyz"] ∧ responseErrors "xyz" = none) ∧
    ∃ msg, (convertErrorCodes ["xyz"]).2 = some msg ∧
      isSubstring ("unknown error code " ++ "xyz") msg :=
  ⟨⟨by decide, by decide⟩, convert_message_unknown_code _ _ (by decide) (by decide)⟩

/-- Claim C5: whenever the verification round trip fails (POST failure, body
read failure or JSON unmarshal failure), Confirm returns (false, err) and
ConfirmV3 returns (false, 0, "", err), err being exactly the error produced
by check. -/
theorem confirm_propagates_check_error (oc : CheckOutcome) (msg : String)
    (h : (check oc).2 = some msg) :
    Confirm oc = (false, some msg) ∧ ConfirmV3 oc = (false, 0, "", some msg) := by
  cases oc <;> simp_all [check, Confirm, ConfirmV3]

/-- Witness for C5: a concrete POST failure. -/
theorem confirm_propagates_check_error_witness :
    (check (CheckOutcome.postErr "connection refused")).2 =
      some "post error: connection refused" ∧
    (Confirm (CheckOutcome.postErr "connection refused") =
        (false, some "post error: connection refused") ∧
      ConfirmV3 (CheckOutcome.postErr "connection refused") =
        (false, 0, "", some "post error: connection refused")) :=
  ⟨rfl, confirm_propagates_check_error _ _ rfl⟩

/-- Claim C6: convertErrorCodes returns no error exactly when the list of
codes is empty. -/
theorem convert_none_iff_empty (l : List String) :
    (convertErrorCodes l).2 = none ↔ l = [] := by
  cases l with
  | nil => simp [convertErrorCodes]
  | cons e rest => simp [convertErrorCodes]

/-- Claim C7: on a decoded response with Success true and an empty
error-codes list, Confirm returns (true, nil). -/
theorem confirm_true_nil_on_clean_success (resp : recaptchaResponse)
    (hs : resp.Success = true) (he : resp.ErrorCodes = []) :
    Confirm (CheckOutcome.ok resp) = (true, none) := by
  show (resp.Success, (convertErrorCodes resp.ErrorCodes).2) = (true, none)
  rw [hs, he]
  rfl

/-- Witness for C7: a concrete clean success response. -/
theorem confirm_true_nil_on_clean_success_witness :
    ((recaptchaResponse.mk true 0 "" "" "" []).Success = true ∧
      (recaptchaResponse.mk true 0 "" "" "" []).ErrorCodes = []) ∧
    Confirm (CheckOutcome.ok (recaptchaResponse.mk true 0 "" "" "" [])) = (true, none) :=
  ⟨⟨rfl, rfl⟩, confirm_true_nil_on_clean_success _ rfl rfl⟩

/-- Claim C8: ConfirmV3 returns the Score and Action fields of the decoded
response unchanged; on a response with Success true, score 9/10, action
login and no error codes it returns (true, 9/10, login, nil). -/
theorem confirmV3_passes_score_action (resp : recaptchaResponse) (ts hn : String) :
    (ConfirmV3 (CheckOutcome.ok resp)).2.1 = resp.Score ∧
    (ConfirmV3 (CheckOutcome.ok resp)).2.2.1 = resp.Action ∧
    ConfirmV3 (CheckOutcome.ok (recaptchaResponse.mk true (9/10) "login" ts hn [])) =
      (true, 9/10, "login", none) :=
  ⟨rfl, rfl, rfl⟩

/-- Claim C9: on every round-trip outcome, the boolean returned by Confirm
equals the first component returned by ConfirmV3, and the error returned by
Confirm equals the error returned by ConfirmV3. -/
theorem confirm_confirmV3_agree (oc : CheckOutcome) :
    (Confirm oc).1 = (ConfirmV3 oc).1 ∧ (Confirm oc).2 = (ConfirmV3 oc).2.2.2 := by
  cases oc <;> exact ⟨rfl, rfl⟩

/-- Claim C10: convertErrorCodes is not idempotent on the slice it mutates:
running it again on the overwritten list re-reports the descriptive text of
the first pass as an unknown-code entry, producing a different aggregate
message. -/
theorem convert_not_idempotent :
    (convertErrorCodes ["bad-request"]).1 = ["the request is invalid or malformed"] ∧
    (convertErrorCodes ((convertErrorCodes ["bad-request"]).1)).2 =
      some "reCAPTCHA request errors: [unknown error code the request is invalid or malformed]" ∧
    (convertErrorCodes ((convertErrorCodes ["bad-request"]).1)).2 ≠
      (convertErrorCodes ["bad-request"]).2 := by
  refine ⟨rfl, rfl, ?_⟩
  decide

end Recaptcha
